import Mathlib

/-!
# Verification of the DaRKRISe Sharks App prediction-grid pipeline

Shallow embedding of `src/app.py` (the Streamlit dashboard): the prediction
grid construction (`np.linspace` lattice), coordinate normalization against
the fixed training bounding box, the overlay construction by zipping model
rates back onto grid points, the shark-location dataset load with its
1000-row cap, and the session-state refresh/caching step.

Real-number arithmetic of the source is embedded over `ℚ` (exact), so the
"endpoints are hit exactly" statements of `np.linspace` are provable.
-/

/-- Fixed training-domain bounding box, `lat_min` (app.py line 71). -/
def lat_min_c : ℚ := 8

/-- Fixed training-domain bounding box, `lat_max` (app.py line 71). -/
def lat_max_c : ℚ := 55

/-- Fixed training-domain bounding box, `lon_min` (app.py line 72). -/
def lon_min_c : ℚ := -98

/-- Fixed training-domain bounding box, `lon_max` (app.py line 72). -/
def lon_max_c : ℚ := -25

/-- The fixed "latest time" scalar `t_last = 1.0` (app.py line 76). -/
def t_last : ℚ := 1

/-- `np.linspace start stop num` with `endpoint=True`: `num` evenly spaced
values from `start` to `stop` inclusive.  For `num = 1` numpy returns
`[start]`; here the `ℚ` convention `x / 0 = 0` makes the general formula
yield exactly that, so no special case is needed.  For `num = 0` the result
is empty. -/
def linspace (start stop : ℚ) (num : ℕ) : List ℚ :=
  (List.range num).map (fun i : ℕ => start + (i : ℚ) * ((stop - start) / ((num : ℚ) - 1)))

/-- `grid_points` (app.py line 77): the list comprehension
`[[lat, lon, t_last] for lat in grid_lat for lon in grid_lon]` — outer loop
over latitude, inner loop over longitude (longitude varies fastest). -/
def grid_points (lat_lo lat_hi lon_lo lon_hi : ℚ) (lat_res lon_res : ℕ) (t : ℚ) :
    List (ℚ × ℚ × ℚ) :=
  (linspace lat_lo lat_hi lat_res).bind
    (fun lat => (linspace lon_lo lon_hi lon_res).map (fun lon => (lat, lon, t)))

/-- `lat_norm` (app.py line 79): `(lat - lat_min) / (lat_max - lat_min)`
against the fixed training bounding box. -/
def lat_norm (lat : ℚ) : ℚ := (lat - lat_min_c) / (lat_max_c - lat_min_c)

/-- `lon_norm` (app.py line 80): `(lon - lon_min) / (lon_max - lon_min)`
against the fixed training bounding box. -/
def lon_norm (lon : ℚ) : ℚ := (lon - lon_min_c) / (lon_max_c - lon_min_c)

/-- `coords_pred` (app.py line 81):
`np.column_stack([lon_norm, lat_norm, np.full_like(lat_norm, t_last)])` —
the per-row triple handed to `model.predict_rate` is
`(lon_norm, lat_norm, t_last)`, in that column order. -/
def coords_pred (lat_res lon_res : ℕ) : List (ℚ × ℚ × ℚ) :=
  (grid_points lat_min_c lat_max_c lon_min_c lon_max_c lat_res lon_res t_last).map
    (fun p => (lon_norm p.2.1, lat_norm p.1, t_last))

/-- `pred_heat` construction (app.py lines 83–86):
`[[lat, lon, float(rate)] for (lat, lon, _), rate in zip(grid_points, rate_mean)]`.
Python's `zip` truncates to the shorter of the two sequences. -/
def pred_heat_of (grid : List (ℚ × ℚ × ℚ)) (rate_mean : List ℚ) : List (ℚ × ℚ × ℚ) :=
  (grid.zip rate_mean).map (fun pr => (pr.1.1, pr.1.2.1, pr.2))

/-- Outcome of the shark-dataset read (app.py lines 52–65): either
`pd.read_csv` raises, or the frame lacks the `latitude`/`longitude`
columns, or it yields a list of (latitude, longitude) rows in file order. -/
inductive LoadResult where
  | readError : LoadResult
  | noColumns : LoadResult
  | rows : List (ℚ × ℚ) → LoadResult

/-- The shark-location load with the 1000-row cap (app.py lines 52–65):
on rows, keep the first 1000 and surface a truncation warning carrying the
true row count when there are more than 1000; on a read error or missing
columns, the dataset degrades to `[]` (with a different warning, not
modelled here).  Returns the stored list and the optional truncation
warning count. -/
def load_sharks : LoadResult → List (ℚ × ℚ) × Option ℕ
  | LoadResult.readError => ([], none)
  | LoadResult.noColumns => ([], none)
  | LoadResult.rows l =>
      if 1000 < l.length then (l.take 1000, some l.length) else (l, none)

/-- Session state (app.py lines 22–26): the four cached fields.  `none`
is Python's `None` for the three caches; `last_refresh` is the generation
counter. -/
structure AppState where
  productivity_points : Option (List (ℚ × ℚ × ℚ))
  shark_locs : Option (List (ℚ × ℚ))
  pred_heat : Option (List (ℚ × ℚ × ℚ))
  last_refresh : ℕ

/-- Initial session state (app.py lines 22–26): all caches `None`,
generation counter 0. -/
def init_state : AppState :=
  { productivity_points := none, shark_locs := none, pred_heat := none, last_refresh := 0 }

/-- One rerun of the script's conditional block (app.py lines 41–95).
`refresh` is the button; `prod` stands for the freshly generated random
productivity points of lines 43–46; `ds` is the dataset-read outcome;
`model` abstracts `pickle.load` + `predict_rate`: given the normalized
coordinates and the sample count it either raises (`none`, covering load
failure and computation errors) or returns the `rate_mean` sequence.
On model failure `pred_heat` is cleared to `none` and the counter is left
alone (lines 93–95).  On model success the overlay is stored and the
counter incremented (lines 87–88), and then the debug-stats line runs
(lines 89–91): it evaluates `np.min(rates)` over the rates of the just
stored overlay, which raises `ValueError` exactly when that overlay is
empty, in which case the except block (lines 93–95) clears `pred_heat`
back to `none` — with the counter left at its incremented value.  When
the guard of line 41 is false the state is returned unchanged. -/
def refresh_step (s : AppState) (refresh : Bool) (prod : List (ℚ × ℚ × ℚ))
    (ds : LoadResult) (lat_res lon_res num_samples : ℕ)
    (model : List (ℚ × ℚ × ℚ) → ℕ → Option (List ℚ)) : AppState :=
  if refresh || s.productivity_points.isNone then
    let sharks := (load_sharks ds).1
    let grid := grid_points lat_min_c lat_max_c lon_min_c lon_max_c lat_res lon_res t_last
    match model (coords_pred lat_res lon_res) num_samples with
    | none =>
        { productivity_points := some prod, shark_locs := some sharks,
          pred_heat := none, last_refresh := s.last_refresh }
    | some rate_mean =>
        let ph := pred_heat_of grid rate_mean
        if ph.isEmpty then
          { productivity_points := some prod, shark_locs := some sharks,
            pred_heat := none, last_refresh := s.last_refresh + 1 }
        else
          { productivity_points := some prod, shark_locs := some sharks,
            pred_heat := some ph, last_refresh := s.last_refresh + 1 }
  else s

/-- Inputs of one rerun, packaged so a session is a list of these. -/
structure StepInput where
  refresh : Bool
  prod : List (ℚ × ℚ × ℚ)
  ds : LoadResult
  lat_res : ℕ
  lon_res : ℕ
  num_samples : ℕ
  model : List (ℚ × ℚ × ℚ) → ℕ → Option (List ℚ)

/-- A whole session: fold `refresh_step` over a list of rerun inputs. -/
def run_steps (s : AppState) (steps : List StepInput) : AppState :=
  steps.foldl
    (fun st inp =>
      refresh_step st inp.refresh inp.prod inp.ds inp.lat_res inp.lon_res
        inp.num_samples inp.model) s

/-- Slider-admissible latitude resolutions (app.py line 32):
`min_value=10, max_value=100, step=5`. -/
def lat_res_slider_ok (n : ℕ) : Prop := 10 ≤ n ∧ n ≤ 100 ∧ (n - 10) % 5 = 0

/-- Slider-admissible longitude resolutions (app.py line 33):
`min_value=20, max_value=200, step=10`. -/
def lon_res_slider_ok (n : ℕ) : Prop := 20 ≤ n ∧ n ≤ 200 ∧ (n - 20) % 10 = 0

-- Basic lemmas about the embedding

lemma linspace_length (a b : ℚ) (n : ℕ) : (linspace a b n).length = n := by
  rw [linspace, List.length_map, List.length_range]

lemma linspace_get? (a b : ℚ) (n i : ℕ) (h : i < n) :
    (linspace a b n).get? i = some (a + (i : ℚ) * ((b - a) / ((n : ℚ) - 1))) := by
  rw [linspace, List.get?_map, List.get?_range h, Option.map_some']

lemma linspace_head? (a b : ℚ) (n : ℕ) (h : 0 < n) :
    (linspace a b n).head? = some a := by
  have h0 := linspace_get? a b n 0 h
  rwa [List.get?_zero, Nat.cast_zero, zero_mul, add_zero] at h0

lemma linspace_getLast? (a b : ℚ) (n : ℕ) (h : 2 ≤ n) :
    (linspace a b n).getLast? = some b := by
  have hlt : n - 1 < n := Nat.sub_lt (by omega) (by omega)
  have h0 := linspace_get? a b n (n - 1) hlt
  have hne : ((n : ℚ) - 1) ≠ 0 := by
    have : (2 : ℚ) ≤ (n : ℚ) := by exact_mod_cast h
    intro hc
    nlinarith
  have hcast : ((n - 1 : ℕ) : ℚ) = (n : ℚ) - 1 := by
    have : (1 : ℕ) ≤ n := by omega
    push_cast [this]
    ring
  rw [List.getLast?_eq_get?, linspace_length, h0, hcast,
    mul_div_cancel₀ (b - a) hne]
  ring_nf

lemma length_bind_const {α β : Type} (l : List α) (f : α → List β) (C : ℕ)
    (hf : ∀ a, (f a).length = C) : (l.bind f).length = l.length * C := by
  induction l with
  | nil => simp
  | cons x xs ih =>
      simp only [List.cons_bind, List.length_append, List.length_cons, ih, hf x]
      ring

lemma get?_bind_const {α β : Type} (l : List α) (f : α → List β) (C : ℕ)
    (hf : ∀ a, (f a).length = C) :
    ∀ (i j : ℕ), j < C → ∀ a, l.get? i = some a →
      (l.bind f).get? (i * C + j) = (f a).get? j := by
  induction l with
  | nil => intro i j _ a ha; simp at ha
  | cons x xs ih =>
      intro i j hj a ha
      cases i with
      | zero =>
          simp only [List.get?] at ha
          cases ha
          simp only [List.cons_bind, zero_mul, zero_add]
          exact List.get?_append (by rw [hf]; exact hj)
      | succ i' =>
          simp only [List.get?] at ha
          simp only [List.cons_bind]
          have hidx : (i' + 1) * C + j = (f x).length + (i' * C + j) := by
            rw [hf]; ring
          rw [hidx, List.get?_append_right (Nat.le_add_right _ _),
            Nat.add_sub_cancel_left]
          exact ih i' j hj a ha

lemma grid_points_length (lat_lo lat_hi lon_lo lon_hi : ℚ) (R C : ℕ) (t : ℚ) :
    (grid_points lat_lo lat_hi lon_lo lon_hi R C t).length = R * C := by
  rw [grid_points, length_bind_const _ _ C
    (fun a => by simp [linspace_length]), linspace_length]

lemma grid_points_get? (lat_lo lat_hi lon_lo lon_hi : ℚ) (R C : ℕ) (t : ℚ)
    (i j : ℕ) (hi : i < R) (hj : j < C) :
    (grid_points lat_lo lat_hi lon_lo lon_hi R C t).get? (i * C + j) =
      some (lat_lo + (i : ℚ) * ((lat_hi - lat_lo) / ((R : ℚ) - 1)),
            lon_lo + (j : ℚ) * ((lon_hi - lon_lo) / ((C : ℚ) - 1)), t) := by
  rw [grid_points, get?_bind_const _ _ C
    (fun a => by simp [linspace_length]) i j hj _ (linspace_get? _ _ _ _ hi)]
  rw [List.get?_map, linspace_get? _ _ _ _ hj]
  rfl

-- Claim theorems

/-- Claim C1: for every grid spec with `lat_resolution = R ≥ 2` and
`lon_resolution = C ≥ 2` over a bounding box, the grid has exactly `R * C`
points; the latitude values are evenly spaced (the explicit affine formula
below), with the first equal to `lat_min` and the last equal to `lat_max`,
likewise for longitude; and the order is outer loop over latitude with
longitude varying fastest: position `i * C + j` holds latitude `i` and
longitude `j`. -/
theorem c1_build_grid (lat_lo lat_hi lon_lo lon_hi t : ℚ) (R C : ℕ)
    (hR : 2 ≤ R) (hC : 2 ≤ C) :
    (grid_points lat_lo lat_hi lon_lo lon_hi R C t).length = R * C ∧
    (linspace lat_lo lat_hi R).head? = some lat_lo ∧
    (linspace lat_lo lat_hi R).getLast? = some lat_hi ∧
    (linspace lon_lo lon_hi C).head? = some lon_lo ∧
    (linspace lon_lo lon_hi C).getLast? = some lon_hi ∧
    (∀ i j : ℕ, i < R → j < C →
      (grid_points lat_lo lat_hi lon_lo lon_hi R C t).get? (i * C + j) =
        some (lat_lo + (i : ℚ) * ((lat_hi - lat_lo) / ((R : ℚ) - 1)),
              lon_lo + (j : ℚ) * ((lon_hi - lon_lo) / ((C : ℚ) - 1)), t)) :=
  ⟨grid_points_length lat_lo lat_hi lon_lo lon_hi R C t,
   linspace_head? lat_lo lat_hi R (by omega),
   linspace_getLast? lat_lo lat_hi R hR,
   linspace_head? lon_lo lon_hi C (by omega),
   linspace_getLast? lon_lo lon_hi C hC,
   fun i j hi hj => grid_points_get? lat_lo lat_hi lon_lo lon_hi R C t i j hi hj⟩

/-- Witness for C1: the training box at resolution 2 × 2. -/
theorem c1_build_grid_witness :
    (2 ≤ 2) ∧
    ((grid_points 8 55 (-98) (-25) 2 2 1).length = 2 * 2 ∧
     (linspace 8 55 2).head? = some 8 ∧
     (linspace 8 55 2).getLast? = some 55 ∧
     (linspace (-98) (-25) 2).head? = some (-98) ∧
     (linspace (-98) (-25) 2).getLast? = some (-25) ∧
     (∀ i j : ℕ, i < 2 → j < 2 →
       (grid_points 8 55 (-98) (-25) 2 2 1).get? (i * 2 + j) =
         some (8 + (i : ℚ) * ((55 - 8) / ((2 : ℚ) - 1)),
               -98 + (j : ℚ) * ((-25 - (-98)) / ((2 : ℚ) - 1)), 1))) :=
  ⟨le_refl 2, c1_build_grid 8 55 (-98) (-25) 1 2 2 (le_refl 2) (le_refl 2)⟩

/-- Claim C2: normalization computes each component as
`(value - min) / (max - min)` against the fixed training bounding box; for
an in-box point both components lie in `[0, 1]`; out-of-box inputs pass
through un-clamped (above-max gives a value strictly above 1, below-min a
strictly negative value). -/
theorem c2_normalize (lat lon : ℚ)
    (hlat1 : lat_min_c ≤ lat) (hlat2 : lat ≤ lat_max_c)
    (hlon1 : lon_min_c ≤ lon) (hlon2 : lon ≤ lon_max_c) :
    lat_norm lat = (lat - lat_min_c) / (lat_max_c - lat_min_c) ∧
    lon_norm lon = (lon - lon_min_c) / (lon_max_c - lon_min_c) ∧
    (0 ≤ lat_norm lat ∧ lat_norm lat ≤ 1) ∧
    (0 ≤ lon_norm lon ∧ lon_norm lon ≤ 1) ∧
    (∀ x : ℚ, lat_max_c < x → 1 < lat_norm x) ∧
    (∀ x : ℚ, x < lat_min_c → lat_norm x < 0) ∧
    (∀ x : ℚ, lon_max_c < x → 1 < lon_norm x) ∧
    (∀ x : ℚ, x < lon_min_c → lon_norm x < 0) := by
  simp only [lat_norm, lon_norm, lat_min_c, lat_max_c, lon_min_c, lon_max_c] at *
  refine ⟨trivial, trivial, ⟨?_, ?_⟩, ⟨?_, ?_⟩, ?_, ?_, ?_, ?_⟩
  · exact div_nonneg (by linarith) (by norm_num)
  · exact (div_le_one (by norm_num)).2 (by linarith)
  · exact div_nonneg (by linarith) (by norm_num)
  · exact (div_le_one (by norm_num)).2 (by linarith)
  · intro x hx; exact (one_lt_div (by norm_num)).2 (by linarith)
  · intro x hx; exact div_neg_of_neg_of_pos (by linarith) (by norm_num)
  · intro x hx; exact (one_lt_div (by norm_num)).2 (by linarith)
  · intro x hx; exact div_neg_of_neg_of_pos (by linarith) (by norm_num)

/-- Witness for C2: the in-box point (10, −50). -/
theorem c2_normalize_witness :
    (lat_min_c ≤ 10 ∧ (10 : ℚ) ≤ lat_max_c ∧ lon_min_c ≤ -50 ∧ (-50 : ℚ) ≤ lon_max_c) ∧
    ((0 ≤ lat_norm 10 ∧ lat_norm 10 ≤ 1) ∧ (0 ≤ lon_norm (-50) ∧ lon_norm (-50) ≤ 1)) :=
  ⟨⟨by norm_num [lat_min_c], by norm_num [lat_max_c],
    by norm_num [lon_min_c], by norm_num [lon_max_c]⟩,
   ⟨(c2_normalize 10 (-50) (by norm_num [lat_min_c]) (by norm_num [lat_max_c])
       (by norm_num [lon_min_c]) (by norm_num [lon_max_c])).2.2.1,
    (c2_normalize 10 (-50) (by norm_num [lat_min_c]) (by norm_num [lat_max_c])
       (by norm_num [lon_min_c]) (by norm_num [lon_max_c])).2.2.2.1⟩⟩

lemma pred_heat_of_get? (grid : List (ℚ × ℚ × ℚ)) :
    ∀ (rates : List ℚ) (i : ℕ) (la lo t r : ℚ),
      grid.get? i = some (la, lo, t) → rates.get? i = some r →
      (pred_heat_of grid rates).get? i = some (la, lo, r) := by
  induction grid with
  | nil => intro rates i la lo t r hg _; simp at hg
  | cons g gs ih =>
      intro rates i la lo t r hg hr
      cases rates with
      | nil => simp at hr
      | cons x xs =>
          cases i with
          | zero =>
              simp only [List.get?] at hg hr
              injection hg with hg
              injection hr with hr
              subst hg; subst hr
              rfl
          | succ i' =>
              simp only [List.get?] at hg hr ⊢
              have h := ih xs i' la lo t r hg hr
              simp only [pred_heat_of, List.zip_cons_cons, List.map_cons,
                List.get?] at h ⊢
              exact h

lemma grid22_get1 :
    (grid_points lat_min_c lat_max_c lon_min_c lon_max_c 2 2 t_last).get? 1
      = some (8, -25, 1) := by
  have h := grid_points_get? lat_min_c lat_max_c lon_min_c lon_max_c 2 2 t_last 0 1
    (by norm_num) (by norm_num)
  norm_num [lat_min_c, lat_max_c, lon_min_c, lon_max_c, t_last] at h
  exact h

lemma pred_heat_of_nil_rates (grid : List (ℚ × ℚ × ℚ)) : pred_heat_of grid [] = [] := by
  rw [pred_heat_of, List.zip_nil_right, List.map_nil]

lemma pred_heat_of_length (grid : List (ℚ × ℚ × ℚ)) (rates : List ℚ) :
    (pred_heat_of grid rates).length = min grid.length rates.length := by
  rw [pred_heat_of, List.length_map, List.length_zip]

/-- A stub external model ignoring its inputs and returning four rates. -/
def stub_model4 : List (ℚ × ℚ × ℚ) → ℕ → Option (List ℚ) :=
  fun _ _ => some [3, 4, 5, 6]

/-- Claim C5: when a refresh's model call returns rates, the produced
overlay's i-th entry carries exactly the i-th grid point's original
(un-normalized) latitude and longitude, paired with the i-th rate — never
the normalized coordinates. -/
theorem c5_overlay_preserves_points (s : AppState) (prod : List (ℚ × ℚ × ℚ))
    (ds : LoadResult) (R C ns : ℕ)
    (model : List (ℚ × ℚ × ℚ) → ℕ → Option (List ℚ)) (rates : List ℚ)
    (hm : model (coords_pred R C) ns = some rates)
    (i : ℕ) (la lo t r : ℚ)
    (hg : (grid_points lat_min_c lat_max_c lon_min_c lon_max_c R C t_last).get? i
        = some (la, lo, t))
    (hr : rates.get? i = some r) :
    ∃ overlay, (refresh_step s true prod ds R C ns model).pred_heat = some overlay ∧
      overlay.get? i = some (la, lo, r) := by
  have hph := pred_heat_of_get? _ rates i la lo t r hg hr
  have hne : ¬ ((pred_heat_of
      (grid_points lat_min_c lat_max_c lon_min_c lon_max_c R C t_last) rates).isEmpty
        = true) := by
    cases hq : pred_heat_of
        (grid_points lat_min_c lat_max_c lon_min_c lon_max_c R C t_last) rates with
    | nil => rw [hq] at hph; simp at hph
    | cons a l => simp
  simp only [refresh_step, Bool.true_or, if_true, hm]
  rw [if_neg hne]
  exact ⟨_, rfl, hph⟩

/-- Witness for C5: a 2 × 2 grid with a stub model returning [3, 4, 5, 6];
the entry at index 1 is the raw corner (8, −25) with rate 4. -/
theorem c5_overlay_preserves_points_witness :
    (stub_model4 (coords_pred 2 2) 500 = some [3, 4, 5, 6] ∧
     (grid_points lat_min_c lat_max_c lon_min_c lon_max_c 2 2 t_last).get? 1
       = some (8, -25, 1) ∧
     ([3, 4, 5, 6] : List ℚ).get? 1 = some 4) ∧
    (∃ overlay,
      (refresh_step init_state true [] LoadResult.readError 2 2 500 stub_model4).pred_heat
        = some overlay ∧ overlay.get? 1 = some (8, -25, 4)) :=
  ⟨⟨rfl, grid22_get1, rfl⟩,
   c5_overlay_preserves_points init_state [] LoadResult.readError 2 2 500
     stub_model4 [3, 4, 5, 6] rfl 1 8 (-25) 1 4 grid22_get1 rfl⟩

/-- Claim C6 counterexample: on the 2 × 2 grid over the training box, grid
point index 1 is (lat 8, lon −25), so lat_norm = 0 and lon_norm = 1; the
triple actually handed to `predict_rate` at that index is (1, 0, 1) — the
claimed order (lat_norm, lon_norm, t) would give (0, 1, 1), a different
triple. -/
theorem c6_counterexample :
    (coords_pred 2 2).get? 1 = some (1, 0, 1) ∧
    ((1 : ℚ), (0 : ℚ), (1 : ℚ)) ≠ ((0 : ℚ), (1 : ℚ), (1 : ℚ)) := by
  constructor
  · rw [coords_pred, List.get?_map, grid22_get1, Option.map_some']
    norm_num [lat_norm, lon_norm, lat_min_c, lat_max_c, lon_min_c, lon_max_c, t_last]
  · simp

/-- Claim C6 amended: for every grid point, the triple handed to the
external model is `(lon_norm, lat_norm, t_last)` — longitude component
first — with the fixed latest-time scalar attached identically to every
point. -/
theorem c6_model_input_order (R C i : ℕ) (la lo t : ℚ)
    (hg : (grid_points lat_min_c lat_max_c lon_min_c lon_max_c R C t_last).get? i
        = some (la, lo, t)) :
    (coords_pred R C).get? i = some (lon_norm lo, lat_norm la, t_last) := by
  rw [coords_pred, List.get?_map, hg, Option.map_some']

/-- Witness for the amended C6: index 1 of the 2 × 2 grid. -/
theorem c6_model_input_order_witness :
    (grid_points lat_min_c lat_max_c lon_min_c lon_max_c 2 2 t_last).get? 1
      = some (8, -25, 1) ∧
    (coords_pred 2 2).get? 1 = some (lon_norm (-25), lat_norm 8, t_last) :=
  ⟨grid22_get1, c6_model_input_order 2 2 1 8 (-25) 1 grid22_get1⟩

/-- Claim C9: a source dataset with more than 1000 rows is truncated to
exactly the first 1000 rows in original order and the truncation warning
carries the true row count; a dataset at or under the cap is kept in full
with no truncation warning. -/
theorem c9_truncation (l : List (ℚ × ℚ)) :
    (1000 < l.length →
      (load_sharks (LoadResult.rows l)).1.length = 1000 ∧
      (load_sharks (LoadResult.rows l)).1 = l.take 1000 ∧
      (load_sharks (LoadResult.rows l)).2 = some l.length) ∧
    (l.length ≤ 1000 →
      (load_sharks (LoadResult.rows l)).1 = l ∧
      (load_sharks (LoadResult.rows l)).2 = none) := by
  constructor
  · intro h
    simp only [load_sharks, if_pos h]
    exact ⟨by rw [List.length_take]; omega, by trivial, by trivial⟩
  · intro h
    simp only [load_sharks, if_neg (by omega : ¬ 1000 < l.length)]
    exact ⟨by trivial, by trivial⟩

/-- Witness for C9: 1001 rows are truncated to exactly 1000. -/
theorem c9_truncation_witness :
    1000 < ((List.range 1001).map (fun n : ℕ => ((n : ℚ), (0 : ℚ)))).length ∧
    (load_sharks (LoadResult.rows
      ((List.range 1001).map (fun n : ℕ => ((n : ℚ), (0 : ℚ)))))).1.length = 1000 :=
  ⟨by simp, ((c9_truncation _).1 (by simp)).1⟩

/-- A stub external model that always fails (load error or raised
computation error). -/
def stub_model_fail : List (ℚ × ℚ × ℚ) → ℕ → Option (List ℚ) :=
  fun _ _ => none

/-- A stub external model returning a single rate regardless of the number
of query points. -/
def stub_model1 : List (ℚ × ℚ × ℚ) → ℕ → Option (List ℚ) :=
  fun _ _ => some [5]

/-- A stub external model returning twenty rates. -/
def stub_model20 : List (ℚ × ℚ × ℚ) → ℕ → Option (List ℚ) :=
  fun _ _ => some (List.replicate 20 1)

/-- Claim C3 counterexample: on a 2 × 2 grid, a model returning a single
rate produces a stored overlay of length 1, not lat_resolution ×
lon_resolution = 4 — Python's `zip` silently truncates, so an overlay
shorter than the grid can be produced. -/
theorem c3_counterexample :
    ((refresh_step init_state true [] LoadResult.readError 2 2 500 stub_model1).pred_heat).map
        List.length = some 1 ∧
    (1 : ℕ) ≠ 2 * 2 := by
  constructor
  · rfl
  · decide

/-- A stub external model returning an empty rate sequence. -/
def stub_model_empty : List (ℚ × ℚ × ℚ) → ℕ → Option (List ℚ) :=
  fun _ _ => some []

/-- Claim C3 amended: if the model load or call fails, the refresh produces
no partial overlay — the cached overlay becomes the explicit unavailable
marker.  An overlay that is produced from a non-empty returned rate
sequence on a non-empty grid has length `min (R * C) rates.length`: exactly
`R * C` whenever the model returns at least one rate per grid point, but a
shorter non-empty rate sequence yields a correspondingly shorter overlay
(zip truncation).  If the model returns an empty rate sequence, no overlay
survives at all: the debug-stats line's `np.min` raises on the empty rate
list after the store, so the overlay is cleared back to the unavailable
marker — with the generation counter already incremented. -/
theorem c3_failure_and_length (s : AppState) (prod : List (ℚ × ℚ × ℚ))
    (ds : LoadResult) (R C ns : ℕ)
    (model : List (ℚ × ℚ × ℚ) → ℕ → Option (List ℚ)) :
    (model (coords_pred R C) ns = none →
      (refresh_step s true prod ds R C ns model).pred_heat = none) ∧
    (∀ rates : List ℚ, model (coords_pred R C) ns = some rates →
      0 < R * C → 0 < rates.length →
      ∃ overlay,
        (refresh_step s true prod ds R C ns model).pred_heat = some overlay ∧
        overlay.length = min (R * C) rates.length ∧
        (R * C ≤ rates.length → overlay.length = R * C)) ∧
    (model (coords_pred R C) ns = some [] →
      (refresh_step s true prod ds R C ns model).pred_heat = none ∧
      (refresh_step s true prod ds R C ns model).last_refresh
        = s.last_refresh + 1) := by
  refine ⟨?_, ?_, ?_⟩
  · intro hm
    simp only [refresh_step, Bool.true_or, if_true, hm]
  · intro rates hm hRC hrates
    have hlen : (pred_heat_of
        (grid_points lat_min_c lat_max_c lon_min_c lon_max_c R C t_last) rates).length
        = min (R * C) rates.length := by
      rw [pred_heat_of_length, grid_points_length]
    have hne : ¬ ((pred_heat_of
        (grid_points lat_min_c lat_max_c lon_min_c lon_max_c R C t_last) rates).isEmpty
          = true) := by
      rw [List.isEmpty_iff_length_eq_zero, hlen]
      omega
    simp only [refresh_step, Bool.true_or, if_true, hm]
    rw [if_neg hne]
    exact ⟨_, rfl, hlen, fun h => by omega⟩
  · intro hm
    simp only [refresh_step, Bool.true_or, if_true, hm, pred_heat_of_nil_rates,
      List.isEmpty_nil, if_true]
    exact ⟨by trivial, by trivial⟩

/-- Witness for the amended C3: a failing model clears the overlay; a model
returning four rates on the 2 × 2 grid yields a stored overlay of length 4;
a model returning an empty rate sequence leaves no overlay but an
incremented counter. -/
theorem c3_failure_and_length_witness :
    (stub_model_fail (coords_pred 2 2) 500 = none ∧
     (refresh_step init_state true [] LoadResult.readError 2 2 500 stub_model_fail).pred_heat
       = none) ∧
    (stub_model4 (coords_pred 2 2) 500 = some [3, 4, 5, 6] ∧ 0 < 2 * 2 ∧
     0 < ([3, 4, 5, 6] : List ℚ).length ∧
     ∃ overlay,
       (refresh_step init_state true [] LoadResult.readError 2 2 500 stub_model4).pred_heat
         = some overlay ∧
       overlay.length = min (2 * 2) ([3, 4, 5, 6] : List ℚ).length ∧
       (2 * 2 ≤ ([3, 4, 5, 6] : List ℚ).length → overlay.length = 2 * 2)) ∧
    (stub_model_empty (coords_pred 2 2) 500 = some [] ∧
     (refresh_step init_state true [] LoadResult.readError 2 2 500 stub_model_empty).pred_heat
       = none ∧
     (refresh_step init_state true [] LoadResult.readError 2 2 500
        stub_model_empty).last_refresh = init_state.last_refresh + 1) :=
  ⟨⟨rfl, (c3_failure_and_length init_state [] LoadResult.readError 2 2 500
      stub_model_fail).1 rfl⟩,
   ⟨rfl, by norm_num, by norm_num,
    (c3_failure_and_length init_state [] LoadResult.readError 2 2 500
      stub_model4).2.1 [3, 4, 5, 6] rfl (by norm_num) (by norm_num)⟩,
   ⟨rfl, (c3_failure_and_length init_state [] LoadResult.readError 2 2 500
      stub_model_empty).2.2 rfl⟩⟩

/-- Claim C4 counterexample: the code contains no `InvalidGridSpec` check.
With latitude resolution 1 the pipeline builds a degenerate single-row grid
of 20 points (`np.linspace` with `num=1` yields `[start]`), the model is
invoked, a 20-entry overlay is stored, and the generation counter is
incremented — nothing is rejected. -/
theorem c4_counterexample :
    (grid_points lat_min_c lat_max_c lon_min_c lon_max_c 1 20 t_last).length = 20 ∧
    (refresh_step init_state true [] LoadResult.readError 1 20 500
        stub_model20).pred_heat.map List.length = some 20 ∧
    (refresh_step init_state true [] LoadResult.readError 1 20 500
        stub_model20).last_refresh = 1 := by
  refine ⟨by rw [grid_points_length], rfl, rfl⟩

/-- Claim C4 amended: `build_grid` performs no resolution validation — a
resolution of 1 in an axis silently produces a degenerate single-row or
single-column grid — but the UI sliders bound the latitude resolution to
[10, 100] (step 5) and the longitude resolution to [20, 200] (step 10), so
any slider-admissible resolution is at least 2 and degenerate grids are
unreachable through the UI. -/
theorem c4_slider_bounds (n m : ℕ)
    (hn : lat_res_slider_ok n) (hm : lon_res_slider_ok m) :
    2 ≤ n ∧ 2 ≤ m ∧
    (∀ C : ℕ, (grid_points lat_min_c lat_max_c lon_min_c lon_max_c 1 C t_last).length = C) ∧
    (∀ R : ℕ, (grid_points lat_min_c lat_max_c lon_min_c lon_max_c R 1 t_last).length = R) := by
  obtain ⟨h1, -, -⟩ := hn
  obtain ⟨h2, -, -⟩ := hm
  refine ⟨by omega, by omega, ?_, ?_⟩
  · intro C; rw [grid_points_length]; omega
  · intro R; rw [grid_points_length]; omega

/-- Witness for the amended C4: the default slider values 40 and 80. -/
theorem c4_slider_bounds_witness :
    (lat_res_slider_ok 40 ∧ lon_res_slider_ok 80) ∧ (2 ≤ 40 ∧ 2 ≤ 80) :=
  ⟨⟨by constructor <;> norm_num, by constructor <;> norm_num⟩,
   ⟨(c4_slider_bounds 40 80 (by constructor <;> norm_num)
       (by constructor <;> norm_num)).1,
    (c4_slider_bounds 40 80 (by constructor <;> norm_num)
       (by constructor <;> norm_num)).2.1⟩⟩

lemma refresh_step_mono (s : AppState) (b : Bool) (prod : List (ℚ × ℚ × ℚ))
    (ds : LoadResult) (R C ns : ℕ)
    (model : List (ℚ × ℚ × ℚ) → ℕ → Option (List ℚ)) :
    s.last_refresh ≤ (refresh_step s b prod ds R C ns model).last_refresh := by
  rw [refresh_step]
  by_cases h : (b || s.productivity_points.isNone) = true
  · rw [if_pos h]
    cases hm : model (coords_pred R C) ns with
    | none => simp
    | some rates =>
        split <;> simp
        split <;> simp
  · rw [if_neg h]

lemma run_steps_mono (steps : List StepInput) :
    ∀ s : AppState, s.last_refresh ≤ (run_steps s steps).last_refresh := by
  induction steps with
  | nil => intro s; exact le_refl _
  | cons x xs ih =>
      intro s
      have h1 := refresh_step_mono s x.refresh x.prod x.ds x.lat_res x.lon_res
        x.num_samples x.model
      have h2 := ih (refresh_step s x.refresh x.prod x.ds x.lat_res x.lon_res
        x.num_samples x.model)
      simp only [run_steps, List.foldl_cons] at h2 ⊢
      exact le_trans h1 h2

/-- Claim C7: a refresh whose model call succeeds increments the generation
counter by exactly 1; a refresh whose model call fails leaves it unchanged;
and across any sequence of reruns the counter is monotonically
non-decreasing. -/
theorem c7_generation (s : AppState) (prod : List (ℚ × ℚ × ℚ)) (ds : LoadResult)
    (R C ns : ℕ) (model : List (ℚ × ℚ × ℚ) → ℕ → Option (List ℚ)) :
    (∀ rates : List ℚ, model (coords_pred R C) ns = some rates →
      (refresh_step s true prod ds R C ns model).last_refresh = s.last_refresh + 1) ∧
    (model (coords_pred R C) ns = none →
      (refresh_step s true prod ds R C ns model).last_refresh = s.last_refresh) ∧
    (∀ steps : List StepInput, s.last_refresh ≤ (run_steps s steps).last_refresh) := by
  refine ⟨?_, ?_, fun steps => run_steps_mono steps s⟩
  · intro rates hm
    simp only [refresh_step, Bool.true_or, if_true, hm]
    split <;> rfl
  · intro hm
    simp only [refresh_step, Bool.true_or, if_true, hm]

/-- Witness for C7: from the initial state, a successful refresh moves the
counter from 0 to 1 and a failed one leaves it at 0. -/
theorem c7_generation_witness :
    (stub_model4 (coords_pred 2 2) 500 = some [3, 4, 5, 6] ∧
     (refresh_step init_state true [] LoadResult.readError 2 2 500
        stub_model4).last_refresh = init_state.last_refresh + 1) ∧
    (stub_model_fail (coords_pred 2 2) 500 = none ∧
     (refresh_step init_state true [] LoadResult.readError 2 2 500
        stub_model_fail).last_refresh = init_state.last_refresh) :=
  ⟨⟨rfl, (c7_generation init_state [] LoadResult.readError 2 2 500 stub_model4).1
      [3, 4, 5, 6] rfl⟩,
   ⟨rfl, (c7_generation init_state [] LoadResult.readError 2 2 500
      stub_model_fail).2.1 rfl⟩⟩

/-- Claim C8: when the model fails during a refresh, the overlay is cleared
to the unavailable marker regardless of whatever overlay the prior state
held, while the shark dataset stored by that same refresh is exactly its
own load's result — the same for every prior state and for any model
outcome, so the prediction failure does not affect it. -/
theorem c8_failure_isolation (s : AppState) (prod : List (ℚ × ℚ × ℚ))
    (ds : LoadResult) (R C ns : ℕ)
    (model : List (ℚ × ℚ × ℚ) → ℕ → Option (List ℚ))
    (hm : model (coords_pred R C) ns = none) :
    (refresh_step s true prod ds R C ns model).pred_heat = none ∧
    (refresh_step s true prod ds R C ns model).shark_locs = some (load_sharks ds).1 ∧
    (∀ (s' : AppState) (model2 : List (ℚ × ℚ × ℚ) → ℕ → Option (List ℚ)),
      (refresh_step s' true prod ds R C ns model2).shark_locs
        = some (load_sharks ds).1) := by
  refine ⟨?_, ?_, ?_⟩
  · simp only [refresh_step, Bool.true_or, if_true, hm]
  · simp only [refresh_step, Bool.true_or, if_true, hm]
  · intro s' model2
    cases hm2 : model2 (coords_pred R C) ns with
    | none => simp only [refresh_step, Bool.true_or, if_true, hm2]
    | some rates =>
        simp only [refresh_step, Bool.true_or, if_true, hm2]
        split <;> rfl

/-- Witness for C8: a prior Ready state with a held overlay loses it on a
failed refresh while the newly loaded dataset row is kept. -/
theorem c8_failure_isolation_witness :
    (stub_model_fail (coords_pred 2 2) 500 = none) ∧
    ((refresh_step ⟨some [], some [], some [(0, 0, 1)], 5⟩ true []
        (LoadResult.rows [(1, 2)]) 2 2 500 stub_model_fail).pred_heat = none ∧
     (refresh_step ⟨some [], some [], some [(0, 0, 1)], 5⟩ true []
        (LoadResult.rows [(1, 2)]) 2 2 500 stub_model_fail).shark_locs
       = some (load_sharks (LoadResult.rows [(1, 2)])).1) :=
  ⟨rfl,
   ⟨(c8_failure_isolation ⟨some [], some [], some [(0, 0, 1)], 5⟩ []
       (LoadResult.rows [(1, 2)]) 2 2 500 stub_model_fail rfl).1,
    (c8_failure_isolation ⟨some [], some [], some [(0, 0, 1)], 5⟩ []
       (LoadResult.rows [(1, 2)]) 2 2 500 stub_model_fail rfl).2.1⟩⟩

/-- Claim C10: a rerun recomputes only when the refresh button was pressed
or the productivity cache is absent; with the productivity cache present a
non-refresh rerun is the identity on the state even when the overlay is
unavailable.  Hence after a refresh whose prediction failed (overlay
cleared, productivity cache filled), every subsequent non-refresh rerun
leaves the state unchanged — no overlay, no retry. -/
theorem c10_no_auto_retry (s : AppState) (prod prod2 : List (ℚ × ℚ × ℚ))
    (ds ds2 : LoadResult) (R C ns R2 C2 ns2 : ℕ)
    (model model2 : List (ℚ × ℚ × ℚ) → ℕ → Option (List ℚ))
    (hm : model (coords_pred R C) ns = none) :
    (∀ s' : AppState, s'.productivity_points.isSome →
      refresh_step s' false prod2 ds2 R2 C2 ns2 model2 = s') ∧
    ((refresh_step s true prod ds R C ns model).pred_heat = none ∧
     (refresh_step s true prod ds R C ns model).productivity_points = some prod ∧
     refresh_step (refresh_step s true prod ds R C ns model) false prod2 ds2 R2 C2 ns2 model2
       = refresh_step s true prod ds R C ns model) := by
  have h1 : ∀ s' : AppState, s'.productivity_points.isSome →
      refresh_step s' false prod2 ds2 R2 C2 ns2 model2 = s' := by
    intro s' h
    cases hp : s'.productivity_points with
    | none => rw [hp] at h; simp at h
    | some l =>
        rw [refresh_step, if_neg]
        simp [hp]
  refine ⟨h1, ?_, ?_, ?_⟩
  · simp only [refresh_step, Bool.true_or, if_true, hm]
  · simp only [refresh_step, Bool.true_or, if_true, hm]
  · apply h1
    simp only [refresh_step, Bool.true_or, if_true, hm]
    rfl

/-- Witness for C10: after a failed-prediction refresh from the initial
state, a subsequent non-refresh rerun (with different parameters and a
working model) changes nothing. -/
theorem c10_no_auto_retry_witness :
    (stub_model_fail (coords_pred 2 2) 500 = none) ∧
    ((refresh_step init_state true [] LoadResult.readError 2 2 500
        stub_model_fail).pred_heat = none ∧
     refresh_step (refresh_step init_state true [] LoadResult.readError 2 2 500 stub_model_fail)
        false [(1, 2, 3)] (LoadResult.rows [(4, 5)]) 3 3 700 stub_model4
       = refresh_step init_state true [] LoadResult.readError 2 2 500 stub_model_fail) :=
  ⟨rfl,
   ⟨(c10_no_auto_retry init_state [] [(1, 2, 3)] LoadResult.readError
       (LoadResult.rows [(4, 5)]) 2 2 500 3 3 700 stub_model_fail stub_model4 rfl).2.1,
    (c10_no_auto_retry init_state [] [(1, 2, 3)] LoadResult.readError
       (LoadResult.rows [(4, 5)]) 2 2 500 3 3 700 stub_model_fail stub_model4 rfl).2.2.2⟩⟩
